import Mathlib

/-
Verification of the vehicle/insurance modification workflow of the
stch-backend repository (src/src/services/dbService.js, function
modificarVehiculoYAseguradora, transactional variant at lines 1361-1601,
and its caller PUT /concesion/:idConcesion/vehiculo/:idVehiculo in
src/src/routes/api.js).

The source file carries an unresolved merge conflict; the embedding
follows the transactional (806dd7cf) variant that the cited lines belong
to.  That variant opens a transaction on the vehicle database, resolves
catalog ids through table-valued functions, runs find-or-create blocks
for the Clase/Tipo/Uso/Color catalogs, updates the vehicle row keyed by
NumeroSerie, writes an audit (bitacora) row, binds the inputs of the
AseguradoraInsertar procedure, and commits; any thrown error rolls the
vehicle transaction back.  Two facts of that variant matter throughout:

* the Tipo block's two queries reference @IdClase and @IdTipo, parameter
  names never declared on the request at that point (request.input for
  them first appears at lines 1462-1463), so whenever the type lookup
  misses the block itself throws the SQL error "Must declare the scalar
  variable @IdClase" and the whole call rolls back — a type row can never
  be created;

* the execute call for AseguradoraInsertar (line 1573) lies in the other
  conflict hunk; the transactional variant only binds the procedure's
  inputs (lines 1538-1551), so nothing is ever sent to the concession
  database.

The embedding models the two database states explicitly and injects
failures of the remaining database operations through an oracle
`fails : Ev → Bool` (an operation marked failing throws, which lands in
the catch block of the source); the Tipo block's failure is not
oracle-driven, it happens exactly when the type lookup misses.
-/

set_option maxHeartbeats 1000000

namespace Stch

/-- JS truthiness of the pattern `!x || x === 0` applied to a nullable
integer (null, undefined and 0 are falsy). -/
def jsFalsy (o : Option Int) : Bool := o.getD 0 == 0

/-- JS `a || b` where `a` is a nullable integer and `b` an integer:
null/undefined/0 fall through to `b`. -/
def jsOr (a : Option Int) (b : Int) : Int :=
  match a with
  | none => b
  | some v => if v = 0 then b else v

/-- JS `a || b` on two nullable integers. -/
def jsOrO (a b : Option Int) : Option Int :=
  match a with
  | none => b
  | some v => if v = 0 then b else some v

/-- Row of the Vehiculo.Clase catalog table (IdClase, Clase, Activo). -/
structure ClaseRow where
  idClase : Int
  clase : String
  activo : Int
deriving DecidableEq, Repr

/-- Row of the Vehiculo.Tipo catalog table (IdClase, IdTipoVehiculo,
TipoVehiculo); the type id is scoped by the class id. -/
structure TipoRow where
  idClase : Int
  idTipoVehiculo : Int
  tipoVehiculo : String
deriving DecidableEq, Repr

/-- Row of the Vehiculo.Uso catalog table (IdUsoVehiculo, UsoVehiculo). -/
structure UsoRow where
  idUsoVehiculo : Int
  usoVehiculo : String
deriving DecidableEq, Repr

/-- Row of the Vehiculo.Color catalog table (IdColor, Color). -/
structure ColorRow where
  idColor : Int
  color : String
deriving DecidableEq, Repr

/-- Generic lookup-only catalog row: a stable integer id for a text label
(used for the Combustible, Marca, Submarca and service catalogs, which the
workflow reads but never writes). -/
structure CatalogoRow where
  id : Int
  label : String
deriving DecidableEq, Repr

/-- Row of the origin catalog: origin text resolves to a ClaveOrigen string. -/
structure OrigenRow where
  clave : String
  label : String
deriving DecidableEq, Repr

/-- Row of the plate-type catalog (already keyed by integer id in the flow). -/
structure TipoPlacaRow where
  id : Int
  label : String
deriving DecidableEq, Repr

/-- One key row of the table-valued function
fn_ObtenerMarcaSubmarcaVersionCategoria: for a (ClaveVehicular, Marca,
Submarca, Version) key it yields category/make/submodel/version ids,
each possibly null. -/
structure CategoriaFnRow where
  claveVehicular : String
  marca : String
  submarca : String
  version : String
  idCategoria : Option Int
  idMarca : Option Int
  idSubmarca : Option Int
  idVersion : Option Int
deriving DecidableEq, Repr

/-- A row of dbo.Vehiculo with every column the workflow touches or reads.
Nullable columns are Options; NumeroSerie is the natural key. -/
structure VehicleRow where
  numeroSerie : String
  idVehiculo : Int
  anio : Option Int
  numeroPasajeros : Option Int
  cilindros : Option Int
  idClase : Option Int
  clase : Option String
  idTipo : Option Int
  tipo : Option String
  idMarca : Option Int
  marca : Option String
  idSubMarca : Option Int
  submarca : Option String
  idVersion : Option Int
  version : Option String
  idUso : Option Int
  uso : Option String
  idCombustible : Option Int
  combustible : Option String
  claveOrigen : Option String
  idColor : Option Int
  color : Option String
  numeroMotor : Option String
  rfv : Option String
  numeroPuertas : Option Int
  nrpv : Option String
  claveVehicular : Option String
  numeroToneladas : Option String
  capacidad : Option String
  idServicio : Option Int
  idTipoPlaca : Option Int
  idCategoria : Option Int
  ultimaActualizacion : Option Int
  placaAnterior : Option String
  placaAsignada : Option String
  idEstatus : Option Int
deriving DecidableEq, Repr

/-- Audit (bitacora) row written through CV_InsertarBitacoraVehiculo. -/
structure BitacoraRow where
  idVehiculo : Option Int
  numeroSerie : String
  idUsuario : Int
  idPerfil : Int
  idSmartCard : Int
  idDelegacion : Int
  idOperacion : Int
deriving DecidableEq, Repr

/-- State of the vehicle database: the vehicle table, every catalog the
workflow consults, the category lookup function's rows, and the audit log. -/
structure VehicleDb where
  vehiculos : List VehicleRow
  clases : List ClaseRow
  tipos : List TipoRow
  usos : List UsoRow
  colores : List ColorRow
  combustibles : List CatalogoRow
  marcas : List CatalogoRow
  submarcas : List CatalogoRow
  origenes : List OrigenRow
  tiposPlaca : List TipoPlacaRow
  servicios : List CatalogoRow
  categoriaFn : List CategoriaFnRow
  bitacora : List BitacoraRow
deriving DecidableEq, Repr

/-- Insurance policy row as AseguradoraInsertar would receive it. -/
structure AseguradoraRow where
  idConcesion : Int
  nombre : String
  numeroPoliza : String
  fechaExp : Int
  fechaVence : Int
  folioPago : String
  observaciones : String
  idUsuario : Int
  idPerfil : Int
  idSmartCard : Int
  idDelegacion : Int
deriving DecidableEq, Repr

/-- State of the concession database (only the insurance table matters here). -/
structure ConcesionDb where
  aseguradoras : List AseguradoraRow
deriving DecidableEq, Repr

/-- The vehiculoData argument: the request body fields the function reads.
PlacaAnterior/PlacaAsignada are part of the request payload; the
transactional variant never writes them. -/
structure VehiculoData where
  Anio : Int
  NumeroPasajeros : Int
  Cilindros : Int
  Clase : String
  ClaveVehicular : String
  Color : String
  Combustible : String
  servicio : String
  IdVersion : Int
  Marca : String
  NRPV : String
  NumeroMotor : String
  NumeroPuertas : Int
  NumeroSerie : String
  Origen : String
  PlacaAnterior : String
  PlacaAsignada : String
  RFV : String
  Submarca : String
  Tipo : String
  Uso : String
  Version : String
  IdTipoPlaca : Int
  NumeroToneladas : String
  Capacidad : String
deriving DecidableEq, Repr

/-- The seguroData argument whose fields are bound for AseguradoraInsertar. -/
structure SeguroData where
  idConcesion : Int
  nombre : String
  numeroPoliza : String
  fechaExp : Int
  fechaVence : Int
  folioPago : String
  observaciones : String
deriving DecidableEq, Repr

/-- The userData argument (acting-user context); each field may be absent. -/
structure UserData where
  UserID : Option Int
  ProfileID : Option Int
  SmartCardID : Option Int
  DelegationID : Option Int
deriving DecidableEq, Repr

/-- Exact-match lookup on the Clase catalog. -/
def lookupClase (rows : List ClaseRow) (s : String) : Option Int :=
  (rows.find? (fun r => r.clase == s)).map (·.idClase)

/-- Exact-match lookup on the Tipo catalog, scoped by class id. -/
def lookupTipo (rows : List TipoRow) (idClase : Int) (s : String) : Option Int :=
  (rows.find? (fun r => r.idClase == idClase && r.tipoVehiculo == s)).map (·.idTipoVehiculo)

/-- Exact-match lookup on the Uso catalog. -/
def lookupUso (rows : List UsoRow) (s : String) : Option Int :=
  (rows.find? (fun r => r.usoVehiculo == s)).map (·.idUsoVehiculo)

/-- Exact-match lookup on the Color catalog. -/
def lookupColor (rows : List ColorRow) (s : String) : Option Int :=
  (rows.find? (fun r => r.color == s)).map (·.idColor)

/-- Exact-match lookup on a lookup-only catalog. -/
def lookupCatalogo (rows : List CatalogoRow) (s : String) : Option Int :=
  (rows.find? (fun r => r.label == s)).map (·.id)

/-- Exact-match lookup on the origin catalog (yields the ClaveOrigen text). -/
def lookupOrigen (rows : List OrigenRow) (s : String) : Option String :=
  (rows.find? (fun r => r.label == s)).map (·.clave)

/-- Result row of CV_ObtenerIDSVehiculo. -/
structure IdsVehiculo where
  idClase : Option Int
  idColor : Option Int
  idCombustible : Option Int
  idMarca : Option Int
  claveOrigen : Option String
  idSubMarca : Option Int
  idTipo : Option Int
  idUso : Option Int
  idTipoPlaca : Option Int
deriving DecidableEq, Repr

/-- Modelled from the spec: the table-valued function CV_ObtenerIDSVehiculo
(a database object, not in the repository) resolves each free-text vehicle
attribute to its catalog id by case/format-sensitive exact match against
the stored text, yielding null on a miss; the type lookup is scoped by the
resolved class id. -/
def cvObtenerIDSVehiculo (db : VehicleDb) (vd : VehiculoData) : IdsVehiculo :=
  { idClase := lookupClase db.clases vd.Clase
    idColor := lookupColor db.colores vd.Color
    idCombustible := lookupCatalogo db.combustibles vd.Combustible
    idMarca := lookupCatalogo db.marcas vd.Marca
    claveOrigen := lookupOrigen db.origenes vd.Origen
    idSubMarca := lookupCatalogo db.submarcas vd.Submarca
    idTipo :=
      match lookupClase db.clases vd.Clase with
      | some c => lookupTipo db.tipos c vd.Tipo
      | none => none
    idUso := lookupUso db.usos vd.Uso
    idTipoPlaca := (db.tiposPlaca.find? (fun r => r.id == vd.IdTipoPlaca)).map (·.id) }

/-- Modelled from the spec: the table-valued function CV_ObtenerIDServicio
(a database object, not in the repository) resolves the service text to its
catalog id by exact match, yielding null on a miss; it never creates rows. -/
def cvObtenerIDServicio (db : VehicleDb) (s : String) : Option Int :=
  lookupCatalogo db.servicios s

/-- Result row of fn_ObtenerMarcaSubmarcaVersionCategoria. -/
structure CategoriaRes where
  idCategoria : Option Int
  idMarca : Option Int
  idSubmarca : Option Int
  idVersion : Option Int
deriving DecidableEq, Repr

/-- Modelled from the spec: the combined lookup
fn_ObtenerMarcaSubmarcaVersionCategoria (a database object, not in the
repository) returns category/make/submodel/version ids for a
(ClaveVehicular, Marca, Submarca, Version) key; a miss yields the empty
record (the source's `recordset[0] || {}`). -/
def fnObtenerMarcaSubmarcaVersionCategoria (db : VehicleDb) (vd : VehiculoData) :
    CategoriaRes :=
  match db.categoriaFn.find? (fun r =>
      r.claveVehicular == vd.ClaveVehicular && r.marca == vd.Marca
        && r.submarca == vd.Submarca && r.version == vd.Version) with
  | some r => ⟨r.idCategoria, r.idMarca, r.idSubmarca, r.idVersion⟩
  | none => ⟨none, none, none, none⟩

/-- Next identity value for a catalog: one more than the largest id (0-based
when the table is empty), the standard model of an IDENTITY column. -/
def nextId (ids : List Int) : Int := ids.foldl max 0 + 1

/-- The Clase find-or-create block (source lines 1417-1424): when the looked
up id is falsy, INSERT a new Clase row with Activo = 1 and use the generated
id; otherwise keep the looked-up id.  Its parameter @Clase is declared on
the request (line 1371), so the statement itself runs. -/
def claseApply (tx : VehicleDb) (clase : String) (idClaseV : Option Int) :
    VehicleDb × Int :=
  if jsFalsy idClaseV then
    let fresh := nextId (tx.clases.map (·.idClase))
    ({ tx with clases := tx.clases ++ [⟨fresh, clase, 1⟩] }, fresh)
  else (tx, idClaseV.getD 0)

/-- The SQL Server error message raised by the Tipo block's queries: they
reference @IdClase (and the INSERT also @IdTipo) although no parameter of
that name has been declared on the request at that point — request.input
for IdClase/IdTipo first appears at lines 1462-1463, after the block. -/
def tipoUndeclaredMsg : String := "Must declare the scalar variable @IdClase"

/-- The Uso find-or-create block (source lines 1440-1447). -/
def usoApply (tx : VehicleDb) (uso : String) (idUsoV : Option Int) :
    VehicleDb × Int :=
  if jsFalsy idUsoV then
    let fresh := nextId (tx.usos.map (·.idUsoVehiculo))
    ({ tx with usos := tx.usos ++ [⟨fresh, uso⟩] }, fresh)
  else (tx, idUsoV.getD 0)

/-- The Color find-or-create block (source lines 1449-1456). -/
def colorApply (tx : VehicleDb) (color : String) (idColorV : Option Int) :
    VehicleDb × Int :=
  if jsFalsy idColorV then
    let fresh := nextId (tx.colores.map (·.idColor))
    ({ tx with colores := tx.colores ++ [⟨fresh, color⟩] }, fresh)
  else (tx, idColorV.getD 0)

/-- The lookup-resolution segment of modificarVehiculoYAseguradora (source
lines 1370-1383 and 1417-1456): resolve the four writable catalogs through
CV_ObtenerIDSVehiculo, then run the Clase block, the Tipo block, the Uso
block and the Color block in source order.  When the looked-up type id is
falsy the code enters the Tipo block and its very first query
(SELECT ISNULL(MAX(IdTipoVehiculo), 0) + 1 ... WHERE IdClase = @IdClase)
throws, because @IdClase is not a declared parameter of the request at
this point; the INSERT that would create the class-scoped type row is
never reached.  An error means the segment throws and the caller's
transaction rolls back (any class row inserted just before the throw is
rolled back with it).  When the type id is present the block is skipped
and the looked-up value is kept. -/
def resolveCats (tx : VehicleDb) (vd : VehiculoData) :
    Except String (VehicleDb × Int × Int × Int × Int) :=
  let ids := cvObtenerIDSVehiculo tx vd
  let c := claseApply tx vd.Clase ids.idClase
  if jsFalsy ids.idTipo then .error tipoUndeclaredMsg
  else
    let u := usoApply c.1 vd.Uso ids.idUso
    let k := colorApply u.1 vd.Color ids.idColor
    .ok (k.1, c.2, ids.idTipo.getD 0, u.2, k.2)

/-- All identifiers the UPDATE statement binds (source lines 1459-1481). -/
structure ResolvedIds where
  idClase : Int
  idTipo : Int
  idUso : Int
  idColor : Int
  idMarca : Option Int
  idSubMarca : Option Int
  idVersion : Int
  idCombustible : Option Int
  claveOrigen : Option String
  idServicio : Option Int
  idTipoPlacaWP : Int
  idCategoria : Int
deriving DecidableEq, Repr

/-- The UPDATE dbo.Vehiculo statement (source lines 1483-1516) applied to
one row: every listed column of a row whose NumeroSerie matches is
overwritten and UltimaActualizacion is stamped; other rows are untouched.
PlacaAnterior, PlacaAsignada, IdEstatus and IdVehiculo are not in the SET
list of the source and stay as they were. -/
def updateVehicleRow (now : Int) (vd : VehiculoData) (rid : ResolvedIds)
    (r : VehicleRow) : VehicleRow :=
  if r.numeroSerie == vd.NumeroSerie then
    { r with
      anio := some vd.Anio
      numeroPasajeros := some vd.NumeroPasajeros
      cilindros := some vd.Cilindros
      idClase := some rid.idClase
      clase := some vd.Clase
      idTipo := some rid.idTipo
      tipo := some vd.Tipo
      idMarca := rid.idMarca
      marca := some vd.Marca
      idSubMarca := rid.idSubMarca
      submarca := some vd.Submarca
      idVersion := some rid.idVersion
      version := some vd.Version
      idUso := some rid.idUso
      uso := some vd.Uso
      idCombustible := rid.idCombustible
      combustible := some vd.Combustible
      claveOrigen := rid.claveOrigen
      idColor := some rid.idColor
      color := some vd.Color
      numeroMotor := some vd.NumeroMotor
      rfv := some vd.RFV
      numeroPuertas := some vd.NumeroPuertas
      nrpv := some vd.NRPV
      claveVehicular := some vd.ClaveVehicular
      numeroToneladas := some vd.NumeroToneladas
      capacidad := some vd.Capacidad
      idServicio := rid.idServicio
      idTipoPlaca := some rid.idTipoPlacaWP
      idCategoria := some rid.idCategoria
      ultimaActualizacion := some now }
  else r

/-- The audit row the source builds for CV_InsertarBitacoraVehiculo
(lines 1527-1536): every acting-user sub-field defaults to 0 through `|| 0`
and the operation code is the constant 2. -/
def mkBitacoraRow (idVehiculo : Option Int) (numeroSerie : String) (ud : UserData) :
    BitacoraRow :=
  { idVehiculo := idVehiculo
    numeroSerie := numeroSerie
    idUsuario := ud.UserID.getD 0
    idPerfil := ud.ProfileID.getD 0
    idSmartCard := ud.SmartCardID.getD 0
    idDelegacion := ud.DelegationID.getD 0
    idOperacion := 2 }

/-- The insurance row whose fields the source binds as inputs of
AseguradoraInsertar (lines 1540-1551): policy fields from seguroData,
acting-user fields from userData with `|| 0` defaults.  In the
transactional variant the procedure is never executed — the execute call
(line 1573) belongs to the other conflict hunk — so this payload never
reaches the concession database. -/
def mkAseguradoraRow (sd : SeguroData) (ud : UserData) : AseguradoraRow :=
  { idConcesion := sd.idConcesion
    nombre := sd.nombre
    numeroPoliza := sd.numeroPoliza
    fechaExp := sd.fechaExp
    fechaVence := sd.fechaVence
    folioPago := sd.folioPago
    observaciones := sd.observaciones
    idUsuario := ud.UserID.getD 0
    idPerfil := ud.ProfileID.getD 0
    idSmartCard := ud.SmartCardID.getD 0
    idDelegacion := ud.DelegationID.getD 0 }

/-- The oracle-driven database operations of the workflow, in source order.
The Tipo block is absent on purpose: its failure is not an injected fault
but the unconditional consequence of its undeclared parameters. -/
inductive Ev where
  | beginTx
  | lookupIds
  | lookupServicio
  | lookupCategoria
  | insertClase
  | insertUso
  | insertColor
  | updateVehiculo
  | selectVehiculo
  | insertBitacora
  | commitTx
deriving DecidableEq, Repr

/-- Name of a failing database step, used in the thrown message. -/
def evName (e : Ev) : String :=
  match e with
  | .beginTx => "begin transaction failed"
  | .lookupIds => "CV_ObtenerIDSVehiculo failed"
  | .lookupServicio => "CV_ObtenerIDServicio failed"
  | .lookupCategoria => "fn_ObtenerMarcaSubmarcaVersionCategoria failed"
  | .insertClase => "INSERT Vehiculo.Clase failed"
  | .insertUso => "INSERT Vehiculo.Uso failed"
  | .insertColor => "INSERT Vehiculo.Color failed"
  | .updateVehiculo => "UPDATE dbo.Vehiculo failed"
  | .selectVehiculo => "SELECT dbo.Vehiculo failed"
  | .insertBitacora => "CV_InsertarBitacoraVehiculo failed"
  | .commitTx => "commit failed"

/-- The message of the error the catch block rethrows (source line 1600):
the fixed prefix plus the underlying error's message. -/
def errMsgStr (m : String) : String :=
  "Error al modificar vehículo y aseguradora: " ++ m

/-- The rethrown message for an oracle-failed step. -/
def errMsg (e : Ev) : String := errMsgStr (evName e)

/-- Value returned to the caller on success (source lines 1594-1597). -/
structure ModResult where
  idVehiculo : Option Int
  returnValue : Int
deriving DecidableEq, Repr

instance : DecidableEq (Except String ModResult) := fun a b =>
  match a, b with
  | .ok x, .ok y =>
      if h : x = y then isTrue (congrArg Except.ok h)
      else isFalse (fun hh => h (by cases hh; rfl))
  | .error x, .error y =>
      if h : x = y then isTrue (congrArg Except.error h)
      else isFalse (fun hh => h (by cases hh; rfl))
  | .ok _, .error _ => isFalse (fun hh => by cases hh)
  | .error _, .ok _ => isFalse (fun hh => by cases hh)

/-- Observable outcome of one call: the returned value or thrown error,
the vehicle database after commit or rollback, and the concession
database (which this variant never writes). -/
structure RunOut where
  result : Except String ModResult
  vdb : VehicleDb
  cdb : ConcesionDb
deriving DecidableEq, Repr

/-- The catch block (source lines 1598-1601): roll back the vehicle
transaction — the committed vehicle database is left exactly as it was —
and rethrow the wrapped message. -/
def abortMsg (vdb : VehicleDb) (cdb : ConcesionDb) (m : String) : RunOut :=
  { result := .error (errMsgStr m), vdb := vdb, cdb := cdb }

/-- Abort on an oracle-failed database step. -/
def abortR (vdb : VehicleDb) (cdb : ConcesionDb) (e : Ev) : RunOut :=
  abortMsg vdb cdb (evName e)

/-- Shallow embedding of modificarVehiculoYAseguradora (transactional
variant, source lines 1361-1601).  All reads and writes before the commit
go through the transaction (initially the committed database).  The Tipo
block aborts unconditionally when the type lookup missed, because its SQL
references the undeclared parameters @IdClase/@IdTipo.  The insurance
inputs are bound but AseguradoraInsertar is never executed (the execute
call sits in the other conflict hunk), so the concession database is
returned as received.  A step marked failing by the oracle throws into
the catch block, which rolls the vehicle transaction back. -/
def modificarVehiculoYAseguradora (fails : Ev → Bool) (now : Int)
    (vdb : VehicleDb) (cdb : ConcesionDb)
    (vehiculoData : VehiculoData) (seguroData : SeguroData) (userData : UserData) :
    RunOut :=
  if fails .beginTx then abortR vdb cdb .beginTx else
  -- CV_ObtenerIDSVehiculo (lines 1370-1394)
  if fails .lookupIds then abortR vdb cdb .lookupIds else
  let ids := cvObtenerIDSVehiculo vdb vehiculoData
  let idTipoPlacaWP := jsOr ids.idTipoPlaca vehiculoData.IdTipoPlaca
  -- CV_ObtenerIDServicio (lines 1396-1402)
  if fails .lookupServicio then abortR vdb cdb .lookupServicio else
  let idServicio := cvObtenerIDServicio vdb vehiculoData.servicio
  -- fn_ObtenerMarcaSubmarcaVersionCategoria (lines 1404-1415)
  if fails .lookupCategoria then abortR vdb cdb .lookupCategoria else
  let cat := fnObtenerMarcaSubmarcaVersionCategoria vdb vehiculoData
  let idCategoria := jsOr cat.idCategoria 0
  let idMarca := jsOrO cat.idMarca ids.idMarca
  let idSubMarca := jsOrO cat.idSubmarca ids.idSubMarca
  let idVersion := jsOr cat.idVersion vehiculoData.IdVersion
  -- find-or-create Clase (lines 1417-1424)
  if jsFalsy ids.idClase && fails .insertClase then abortR vdb cdb .insertClase else
  let c := claseApply vdb vehiculoData.Clase ids.idClase
  -- Tipo block (lines 1426-1438): on a type-lookup miss its first query,
  -- SELECT ... WHERE IdClase = @IdClase, references a parameter never
  -- declared on the request at this point and always throws; the whole
  -- call then rolls back (including any Clase row just inserted)
  if jsFalsy ids.idTipo then abortMsg vdb cdb tipoUndeclaredMsg else
  -- find-or-create Uso (lines 1440-1447)
  if jsFalsy ids.idUso && fails .insertUso then abortR vdb cdb .insertUso else
  let u := usoApply c.1 vehiculoData.Uso ids.idUso
  -- find-or-create Color (lines 1449-1456)
  if jsFalsy ids.idColor && fails .insertColor then abortR vdb cdb .insertColor else
  let k := colorApply u.1 vehiculoData.Color ids.idColor
  let rid : ResolvedIds :=
    { idClase := c.2, idTipo := ids.idTipo.getD 0, idUso := u.2, idColor := k.2
      idMarca := idMarca, idSubMarca := idSubMarca, idVersion := idVersion
      idCombustible := ids.idCombustible, claveOrigen := ids.claveOrigen
      idServicio := idServicio, idTipoPlacaWP := idTipoPlacaWP
      idCategoria := idCategoria }
  -- UPDATE dbo.Vehiculo (lines 1483-1516); zero affected rows is not checked
  if fails .updateVehiculo then abortR vdb cdb .updateVehiculo else
  let tx := { k.1 with vehiculos := k.1.vehiculos.map (updateVehicleRow now vehiculoData rid) }
  -- SELECT the updated row (lines 1518-1524)
  if fails .selectVehiculo then abortR vdb cdb .selectVehiculo else
  let idVehiculo :=
    (tx.vehiculos.find? (fun r => r.numeroSerie == vehiculoData.NumeroSerie)).map (·.idVehiculo)
  -- CV_InsertarBitacoraVehiculo (lines 1526-1536)
  if fails .insertBitacora then abortR vdb cdb .insertBitacora else
  let tx := { tx with bitacora := tx.bitacora ++ [mkBitacoraRow idVehiculo vehiculoData.NumeroSerie userData] }
  -- AseguradoraInsertar inputs are bound (lines 1538-1551) but the execute
  -- call belongs to the other conflict hunk: nothing is sent to the
  -- concession database in this variant
  -- transaction.commit() (line 1592)
  if fails .commitTx then abortR vdb cdb .commitTx else
  { result := .ok { idVehiculo := idVehiculo, returnValue := 0 }, vdb := tx, cdb := cdb }

/-- Response of PUT /concesion/:idConcesion/vehiculo/:idVehiculo
(api.js lines 1068-1081): success gives a JSON body with the vehicle id,
any thrown error gives one opaque HTTP 500 body. -/
inductive RouteResp where
  | ok (idVehiculo : Option Int) (returnValue : Int) (message : String)
  | err (status : Nat) (error : String) (details : String)
deriving DecidableEq, Repr

/-- The route's mapping from the service outcome to the HTTP response
(api.js lines 1070-1081). -/
def putConcesionVehiculoRespond (r : Except String ModResult) : RouteResp :=
  match r with
  | .ok m => .ok m.idVehiculo m.returnValue "Vehículo y aseguradora modificados correctamente"
  | .error e => .err 500 "Error al modificar vehículo y aseguradora" e

/-- The oracle of a run in which every oracle-driven operation succeeds. -/
def noFail : Ev → Bool := fun _ => false

/-- The oracle of a run in which exactly the given operation throws. -/
def failsOnly (e : Ev) : Ev → Bool := fun x => x == e

/-- Transaction state after the catalog blocks of a run that passed the
Tipo block (the Tipo block never changes state: it either throws or is
skipped). -/
def txAfterCats (vdb : VehicleDb) (vd : VehiculoData) : VehicleDb :=
  let ids := cvObtenerIDSVehiculo vdb vd
  let c := claseApply vdb vd.Clase ids.idClase
  let u := usoApply c.1 vd.Uso ids.idUso
  let k := colorApply u.1 vd.Color ids.idColor
  k.1

/-- All identifiers a run that passed the Tipo block binds into the UPDATE. -/
def resolvedIdsOf (vdb : VehicleDb) (vd : VehiculoData) : ResolvedIds :=
  let ids := cvObtenerIDSVehiculo vdb vd
  let cat := fnObtenerMarcaSubmarcaVersionCategoria vdb vd
  let c := claseApply vdb vd.Clase ids.idClase
  let u := usoApply c.1 vd.Uso ids.idUso
  let k := colorApply u.1 vd.Color ids.idColor
  { idClase := c.2
    idTipo := ids.idTipo.getD 0
    idUso := u.2
    idColor := k.2
    idMarca := jsOrO cat.idMarca ids.idMarca
    idSubMarca := jsOrO cat.idSubmarca ids.idSubMarca
    idVersion := jsOr cat.idVersion vd.IdVersion
    idCombustible := ids.idCombustible
    claveOrigen := ids.claveOrigen
    idServicio := cvObtenerIDServicio vdb vd.servicio
    idTipoPlacaWP := jsOr ids.idTipoPlaca vd.IdTipoPlaca
    idCategoria := jsOr cat.idCategoria 0 }

/-- Transaction state after the UPDATE statement of a successful run. -/
def txAfterUpdate (now : Int) (vdb : VehicleDb) (vd : VehiculoData) : VehicleDb :=
  let tx := txAfterCats vdb vd
  { tx with vehiculos := tx.vehiculos.map (updateVehicleRow now vd (resolvedIdsOf vdb vd)) }

/-- The vehicle id a successful run reads back after the UPDATE. -/
def idVehiculoOf (now : Int) (vdb : VehicleDb) (vd : VehiculoData) : Option Int :=
  ((txAfterUpdate now vdb vd).vehiculos.find?
      (fun r => r.numeroSerie == vd.NumeroSerie)).map (·.idVehiculo)

/-- Vehicle database a fully successful run commits. -/
def committedVdbOf (now : Int) (vdb : VehicleDb) (vd : VehiculoData) (ud : UserData) :
    VehicleDb :=
  let tx := txAfterUpdate now vdb vd
  { tx with
    bitacora := tx.bitacora ++ [mkBitacoraRow (idVehiculoOf now vdb vd) vd.NumeroSerie ud] }

/-- Normal form of a run in which no oracle-driven operation fails and the
type lookup hit: the function returns the read-back vehicle id, commits
the transformed vehicle database, and leaves the concession database
untouched. -/
theorem run_noFail_found_eq (now : Int) (vdb : VehicleDb) (cdb : ConcesionDb)
    (vd : VehiculoData) (sd : SeguroData) (ud : UserData)
    (h : jsFalsy ((cvObtenerIDSVehiculo vdb vd).idTipo) = false) :
    modificarVehiculoYAseguradora noFail now vdb cdb vd sd ud =
      { result := .ok { idVehiculo := idVehiculoOf now vdb vd, returnValue := 0 }
        vdb := committedVdbOf now vdb vd ud
        cdb := cdb } := by
  simp only [modificarVehiculoYAseguradora, noFail, committedVdbOf, idVehiculoOf,
    txAfterUpdate, txAfterCats, resolvedIdsOf, Bool.and_false, if_false,
    Bool.false_eq_true, h]

/-- Normal form of a run in which the type lookup missed: the Tipo block
throws its undeclared-parameter error and everything rolls back,
regardless of the rest of the state. -/
theorem run_noFail_tipoMiss_eq (now : Int) (vdb : VehicleDb) (cdb : ConcesionDb)
    (vd : VehiculoData) (sd : SeguroData) (ud : UserData)
    (h : jsFalsy ((cvObtenerIDSVehiculo vdb vd).idTipo) = true) :
    modificarVehiculoYAseguradora noFail now vdb cdb vd sd ud
      = abortMsg vdb cdb tipoUndeclaredMsg := by
  simp only [modificarVehiculoYAseguradora, noFail, Bool.and_false, if_false,
    Bool.false_eq_true, h, if_true]

/-- Every run leaves the concession database untouched, and either aborts
with an error and the committed vehicle database unchanged, or is the
fully successful run in normal form. -/
theorem run_shape (fails : Ev → Bool) (now : Int) (vdb : VehicleDb)
    (cdb : ConcesionDb) (vd : VehiculoData) (sd : SeguroData) (ud : UserData) :
    (modificarVehiculoYAseguradora fails now vdb cdb vd sd ud).cdb = cdb
      ∧ ((∃ e, (modificarVehiculoYAseguradora fails now vdb cdb vd sd ud).result = .error e)
            ∧ (modificarVehiculoYAseguradora fails now vdb cdb vd sd ud).vdb = vdb
          ∨ ((modificarVehiculoYAseguradora fails now vdb cdb vd sd ud).result
                = .ok { idVehiculo := idVehiculoOf now vdb vd, returnValue := 0 }
              ∧ (modificarVehiculoYAseguradora fails now vdb cdb vd sd ud).vdb
                = committedVdbOf now vdb vd ud)) := by
  simp only [modificarVehiculoYAseguradora, committedVdbOf, idVehiculoOf,
    txAfterUpdate, txAfterCats, resolvedIdsOf]
  by_cases h1 : fails Ev.beginTx = true
  · rw [if_pos h1]; exact ⟨rfl, Or.inl ⟨⟨_, rfl⟩, rfl⟩⟩
  rw [if_neg h1]
  by_cases h2 : fails Ev.lookupIds = true
  · rw [if_pos h2]; exact ⟨rfl, Or.inl ⟨⟨_, rfl⟩, rfl⟩⟩
  rw [if_neg h2]
  by_cases h3 : fails Ev.lookupServicio = true
  · rw [if_pos h3]; exact ⟨rfl, Or.inl ⟨⟨_, rfl⟩, rfl⟩⟩
  rw [if_neg h3]
  by_cases h4 : fails Ev.lookupCategoria = true
  · rw [if_pos h4]; exact ⟨rfl, Or.inl ⟨⟨_, rfl⟩, rfl⟩⟩
  rw [if_neg h4]
  by_cases h5 : (jsFalsy (cvObtenerIDSVehiculo vdb vd).idClase && fails Ev.insertClase) = true
  · rw [if_pos h5]; exact ⟨rfl, Or.inl ⟨⟨_, rfl⟩, rfl⟩⟩
  rw [if_neg h5]
  by_cases h6 : jsFalsy (cvObtenerIDSVehiculo vdb vd).idTipo = true
  · rw [if_pos h6]; exact ⟨rfl, Or.inl ⟨⟨_, rfl⟩, rfl⟩⟩
  rw [if_neg h6]
  by_cases h7 : (jsFalsy (cvObtenerIDSVehiculo vdb vd).idUso && fails Ev.insertUso) = true
  · rw [if_pos h7]; exact ⟨rfl, Or.inl ⟨⟨_, rfl⟩, rfl⟩⟩
  rw [if_neg h7]
  by_cases h8 : (jsFalsy (cvObtenerIDSVehiculo vdb vd).idColor && fails Ev.insertColor) = true
  · rw [if_pos h8]; exact ⟨rfl, Or.inl ⟨⟨_, rfl⟩, rfl⟩⟩
  rw [if_neg h8]
  by_cases h9 : fails Ev.updateVehiculo = true
  · rw [if_pos h9]; exact ⟨rfl, Or.inl ⟨⟨_, rfl⟩, rfl⟩⟩
  rw [if_neg h9]
  by_cases h10 : fails Ev.selectVehiculo = true
  · rw [if_pos h10]; exact ⟨rfl, Or.inl ⟨⟨_, rfl⟩, rfl⟩⟩
  rw [if_neg h10]
  by_cases h11 : fails Ev.insertBitacora = true
  · rw [if_pos h11]; exact ⟨rfl, Or.inl ⟨⟨_, rfl⟩, rfl⟩⟩
  rw [if_neg h11]
  by_cases h12 : fails Ev.commitTx = true
  · rw [if_pos h12]; exact ⟨rfl, Or.inl ⟨⟨_, rfl⟩, rfl⟩⟩
  rw [if_neg h12]
  exact ⟨rfl, Or.inr ⟨rfl, rfl⟩⟩

/-- Any failing run rolls the vehicle transaction back: the committed
vehicle database is returned unchanged. -/
theorem run_error_vdb (fails : Ev → Bool) (now : Int) (vdb : VehicleDb)
    (cdb : ConcesionDb) (vd : VehiculoData) (sd : SeguroData) (ud : UserData)
    (e : String)
    (h : (modificarVehiculoYAseguradora fails now vdb cdb vd sd ud).result = .error e) :
    (modificarVehiculoYAseguradora fails now vdb cdb vd sd ud).vdb = vdb := by
  rcases (run_shape fails now vdb cdb vd sd ud).2 with ⟨_, hv⟩ | ⟨hok, _⟩
  · exact hv
  · rw [h] at hok
    cases hok

/-- The catalog blocks touch only the clases, usos and colores lists:
vehicles, audit log, the type catalog and every lookup-only catalog pass
through unchanged. -/
theorem txAfterCats_frame (vdb : VehicleDb) (vd : VehiculoData) :
    (txAfterCats vdb vd).vehiculos = vdb.vehiculos
      ∧ (txAfterCats vdb vd).bitacora = vdb.bitacora
      ∧ (txAfterCats vdb vd).tipos = vdb.tipos
      ∧ (txAfterCats vdb vd).combustibles = vdb.combustibles
      ∧ (txAfterCats vdb vd).marcas = vdb.marcas
      ∧ (txAfterCats vdb vd).submarcas = vdb.submarcas
      ∧ (txAfterCats vdb vd).origenes = vdb.origenes
      ∧ (txAfterCats vdb vd).tiposPlaca = vdb.tiposPlaca
      ∧ (txAfterCats vdb vd).servicios = vdb.servicios
      ∧ (txAfterCats vdb vd).categoriaFn = vdb.categoriaFn := by
  simp only [txAfterCats, claseApply, usoApply, colorApply]
  repeat' split
  all_goals exact ⟨rfl, rfl, rfl, rfl, rfl, rfl, rfl, rfl, rfl, rfl⟩

/-- Effect of the Clase block on the Clase catalog and the resolved
class id. -/
theorem txAfterCats_clases_eq (vdb : VehicleDb) (vd : VehiculoData) :
    ((txAfterCats vdb vd).clases, (resolvedIdsOf vdb vd).idClase)
      = if jsFalsy (lookupClase vdb.clases vd.Clase) then
          (vdb.clases ++ [⟨nextId (vdb.clases.map (·.idClase)), vd.Clase, 1⟩],
            nextId (vdb.clases.map (·.idClase)))
        else (vdb.clases, (lookupClase vdb.clases vd.Clase).getD 0) := by
  simp only [txAfterCats, resolvedIdsOf, claseApply, usoApply, colorApply]
  repeat' split
  all_goals simp_all [cvObtenerIDSVehiculo]

/-- Effect of the Uso block on the Uso catalog and the resolved use id. -/
theorem txAfterCats_usos_eq (vdb : VehicleDb) (vd : VehiculoData) :
    ((txAfterCats vdb vd).usos, (resolvedIdsOf vdb vd).idUso)
      = if jsFalsy (lookupUso vdb.usos vd.Uso) then
          (vdb.usos ++ [⟨nextId (vdb.usos.map (·.idUsoVehiculo)), vd.Uso⟩],
            nextId (vdb.usos.map (·.idUsoVehiculo)))
        else (vdb.usos, (lookupUso vdb.usos vd.Uso).getD 0) := by
  simp only [txAfterCats, resolvedIdsOf, claseApply, usoApply, colorApply]
  repeat' split
  all_goals simp_all [cvObtenerIDSVehiculo]

/-- Effect of the Color block on the Color catalog and the resolved
color id. -/
theorem txAfterCats_colores_eq (vdb : VehicleDb) (vd : VehiculoData) :
    ((txAfterCats vdb vd).colores, (resolvedIdsOf vdb vd).idColor)
      = if jsFalsy (lookupColor vdb.colores vd.Color) then
          (vdb.colores ++ [⟨nextId (vdb.colores.map (·.idColor)), vd.Color⟩],
            nextId (vdb.colores.map (·.idColor)))
        else (vdb.colores, (lookupColor vdb.colores vd.Color).getD 0) := by
  simp only [txAfterCats, resolvedIdsOf, claseApply, usoApply, colorApply]
  repeat' split
  all_goals simp_all [cvObtenerIDSVehiculo]

/-- Explicit form of the vehicle database a fully successful run commits:
only the clases, usos and colores catalogs, the vehicle rows and the
audit log can change; the type catalog and every lookup-only catalog pass
through unchanged. -/
theorem committedVdbOf_eq (now : Int) (vdb : VehicleDb) (vd : VehiculoData)
    (ud : UserData) :
    committedVdbOf now vdb vd ud =
      { vehiculos := vdb.vehiculos.map (updateVehicleRow now vd (resolvedIdsOf vdb vd))
        clases := (txAfterCats vdb vd).clases
        tipos := vdb.tipos
        usos := (txAfterCats vdb vd).usos
        colores := (txAfterCats vdb vd).colores
        combustibles := vdb.combustibles
        marcas := vdb.marcas
        submarcas := vdb.submarcas
        origenes := vdb.origenes
        tiposPlaca := vdb.tiposPlaca
        servicios := vdb.servicios
        categoriaFn := vdb.categoriaFn
        bitacora := vdb.bitacora
          ++ [mkBitacoraRow (idVehiculoOf now vdb vd) vd.NumeroSerie ud] } := by
  obtain ⟨h1, h2, h3, h4, h5, h6, h7, h8, h9, h10⟩ := txAfterCats_frame vdb vd
  simp only [committedVdbOf, txAfterUpdate]
  rw [h1, h2, h3, h4, h5, h6, h7, h8, h9, h10]

/-- The vehicle id read back after the UPDATE, over the original rows. -/
theorem idVehiculoOf_eq (now : Int) (vdb : VehicleDb) (vd : VehiculoData) :
    idVehiculoOf now vdb vd =
      ((vdb.vehiculos.map (updateVehicleRow now vd (resolvedIdsOf vdb vd))).find?
          (fun r => r.numeroSerie == vd.NumeroSerie)).map (·.idVehiculo) := by
  simp only [idVehiculoOf, txAfterUpdate]
  rw [(txAfterCats_frame vdb vd).1]

/-- Whatever the failure oracle does, the type catalog and the lookup-only
catalogs (fuel, make, submodel, origin, plate type and service) never
change. -/
theorem run_lookup_only_frames (fails : Ev → Bool) (now : Int) (vdb : VehicleDb)
    (cdb : ConcesionDb) (vd : VehiculoData) (sd : SeguroData) (ud : UserData) :
    (modificarVehiculoYAseguradora fails now vdb cdb vd sd ud).vdb.tipos = vdb.tipos
      ∧ (modificarVehiculoYAseguradora fails now vdb cdb vd sd ud).vdb.combustibles = vdb.combustibles
      ∧ (modificarVehiculoYAseguradora fails now vdb cdb vd sd ud).vdb.marcas = vdb.marcas
      ∧ (modificarVehiculoYAseguradora fails now vdb cdb vd sd ud).vdb.submarcas = vdb.submarcas
      ∧ (modificarVehiculoYAseguradora fails now vdb cdb vd sd ud).vdb.origenes = vdb.origenes
      ∧ (modificarVehiculoYAseguradora fails now vdb cdb vd sd ud).vdb.tiposPlaca = vdb.tiposPlaca
      ∧ (modificarVehiculoYAseguradora fails now vdb cdb vd sd ud).vdb.servicios = vdb.servicios := by
  rcases (run_shape fails now vdb cdb vd sd ud).2 with ⟨_, h⟩ | ⟨_, h⟩ <;> rw [h]
  · exact ⟨rfl, rfl, rfl, rfl, rfl, rfl, rfl⟩
  · rw [committedVdbOf_eq]
    exact ⟨rfl, rfl, rfl, rfl, rfl, rfl, rfl⟩

/-- In the committed state of any successful run, every vehicle row
matching the supplied serial carries exactly the resolved identifiers of
the call (in particular a null fuel/make/submodel/origin/service id when
the corresponding lookup missed). -/
theorem run_ok_matching_row (fails : Ev → Bool) (now : Int) (vdb : VehicleDb)
    (cdb : ConcesionDb) (vd : VehiculoData) (sd : SeguroData) (ud : UserData)
    (m : ModResult) (r : VehicleRow)
    (hok : (modificarVehiculoYAseguradora fails now vdb cdb vd sd ud).result = .ok m)
    (hm : r ∈ (modificarVehiculoYAseguradora fails now vdb cdb vd sd ud).vdb.vehiculos)
    (hs : r.numeroSerie = vd.NumeroSerie) :
    r.idClase = some (resolvedIdsOf vdb vd).idClase
      ∧ r.idTipo = some (resolvedIdsOf vdb vd).idTipo
      ∧ r.idUso = some (resolvedIdsOf vdb vd).idUso
      ∧ r.idColor = some (resolvedIdsOf vdb vd).idColor
      ∧ r.idCombustible = (resolvedIdsOf vdb vd).idCombustible
      ∧ r.idMarca = (resolvedIdsOf vdb vd).idMarca
      ∧ r.idSubMarca = (resolvedIdsOf vdb vd).idSubMarca
      ∧ r.claveOrigen = (resolvedIdsOf vdb vd).claveOrigen
      ∧ r.idServicio = (resolvedIdsOf vdb vd).idServicio
      ∧ r.idTipoPlaca = some (resolvedIdsOf vdb vd).idTipoPlacaWP
      ∧ r.idCategoria = some (resolvedIdsOf vdb vd).idCategoria := by
  rcases (run_shape fails now vdb cdb vd sd ud).2 with ⟨⟨e, he⟩, _⟩ | ⟨_, hv⟩
  · rw [hok] at he
    cases he
  · rw [hv, committedVdbOf_eq] at hm
    rcases List.mem_map.1 hm with ⟨q, hq, rfl⟩
    by_cases hb : (q.numeroSerie == vd.NumeroSerie) = true
    · simp [updateVehicleRow, hb]
    · simp only [updateVehicleRow, hb, if_false, Bool.false_eq_true] at hs ⊢
      exact absurd (beq_iff_eq.2 hs) (by simp_all [updateVehicleRow, hb])

/-- A present, nonzero id is not falsy. -/
theorem jsFalsy_some_ne (v : Int) (h : v ≠ 0) : jsFalsy (some v) = false := by
  simp [jsFalsy, h]

/-- A non-falsy nullable id is a present nonzero value. -/
theorem jsFalsy_eq_false (o : Option Int) (h : jsFalsy o = false) :
    ∃ v, o = some v ∧ v ≠ 0 := by
  cases o with
  | none => simp [jsFalsy] at h
  | some v =>
      refine ⟨v, rfl, ?_⟩
      simpa [jsFalsy] using h

/-- An initial accumulator never exceeds a max fold. -/
theorem foldl_max_init_le (l : List Int) : ∀ init : Int, init ≤ l.foldl max init := by
  induction l with
  | nil => intro init; simp
  | cons x xs ih =>
      intro init
      exact le_trans (le_max_left init x) (ih (max init x))

/-- A generated identity value is positive. -/
theorem nextId_pos (l : List Int) : 0 < nextId l := by
  unfold nextId
  have := foldl_max_init_le l 0
  omega

/-- A found class id is positive when the catalog's ids all are. -/
theorem lookupClase_pos (rows : List ClaseRow) (s : String) (v : Int)
    (hwf : ∀ r ∈ rows, 0 < r.idClase) (hv : lookupClase rows s = some v) : 0 < v := by
  unfold lookupClase at hv
  obtain ⟨r, hr, hmap⟩ := Option.map_eq_some'.1 hv
  exact hmap ▸ hwf r (List.mem_of_find?_eq_some hr)

/-- A found use id is positive when the catalog's ids all are. -/
theorem lookupUso_pos (rows : List UsoRow) (s : String) (v : Int)
    (hwf : ∀ r ∈ rows, 0 < r.idUsoVehiculo) (hv : lookupUso rows s = some v) : 0 < v := by
  unfold lookupUso at hv
  obtain ⟨r, hr, hmap⟩ := Option.map_eq_some'.1 hv
  exact hmap ▸ hwf r (List.mem_of_find?_eq_some hr)

/-- A found color id is positive when the catalog's ids all are. -/
theorem lookupColor_pos (rows : List ColorRow) (s : String) (v : Int)
    (hwf : ∀ r ∈ rows, 0 < r.idColor) (hv : lookupColor rows s = some v) : 0 < v := by
  unfold lookupColor at hv
  obtain ⟨r, hr, hmap⟩ := Option.map_eq_some'.1 hv
  exact hmap ▸ hwf r (List.mem_of_find?_eq_some hr)

/-- After appending a use row with the searched label, the lookup finds it. -/
theorem lookupUso_append_self (rows : List UsoRow) (s : String) (f : Int)
    (h : lookupUso rows s = none) :
    lookupUso (rows ++ [⟨f, s⟩]) s = some f := by
  unfold lookupUso at h ⊢
  rw [List.find?_append, Option.map_eq_none'.1 h, Option.none_or]
  simp [List.find?]

/-- After appending a color row with the searched label, the lookup finds it. -/
theorem lookupColor_append_self (rows : List ColorRow) (s : String) (f : Int)
    (h : lookupColor rows s = none) :
    lookupColor (rows ++ [⟨f, s⟩]) s = some f := by
  unfold lookupColor at h ⊢
  rw [List.find?_append, Option.map_eq_none'.1 h, Option.none_or]
  simp [List.find?]

/-- Well-formed catalog state: every stored id is positive, as generated
by SQL identity columns (which start at 1). -/
def wfVehicleDb (db : VehicleDb) : Prop :=
  (∀ r ∈ db.clases, 0 < r.idClase)
    ∧ (∀ r ∈ db.tipos, 0 < r.idTipoVehiculo)
    ∧ (∀ r ∈ db.usos, 0 < r.idUsoVehiculo)
    ∧ (∀ r ∈ db.colores, 0 < r.idColor)

/-- When every lookup relevant to the blocks hits, the catalog blocks
change nothing. -/
theorem txAfterCats_all_found (tx : VehicleDb) (vd : VehiculoData)
    (h1 : jsFalsy (lookupClase tx.clases vd.Clase) = false)
    (h3 : jsFalsy (lookupUso tx.usos vd.Uso) = false)
    (h4 : jsFalsy (lookupColor tx.colores vd.Color) = false) :
    txAfterCats tx vd = tx := by
  simp only [txAfterCats, claseApply, usoApply, colorApply, cvObtenerIDSVehiculo]
  simp [h1, h3, h4]

/-- A resolution that returns ok passed the Tipo block (the type lookup
hit), and its value is the catalog state and ids of the pure blocks. -/
theorem resolveCats_ok_elim (tx : VehicleDb) (vd : VehiculoData)
    (out : VehicleDb × Int × Int × Int × Int)
    (h : resolveCats tx vd = .ok out) :
    jsFalsy ((cvObtenerIDSVehiculo tx vd).idTipo) = false
      ∧ out = (txAfterCats tx vd,
          (resolvedIdsOf tx vd).idClase, (resolvedIdsOf tx vd).idTipo,
          (resolvedIdsOf tx vd).idUso, (resolvedIdsOf tx vd).idColor) := by
  simp only [resolveCats] at h
  by_cases hb : jsFalsy ((cvObtenerIDSVehiculo tx vd).idTipo) = true
  · rw [if_pos hb] at h
    simp at h
  · rw [if_neg hb] at h
    injection h with h2
    exact ⟨by simpa using hb, h2.symm⟩

/-- A resolution whose type lookup hit returns ok with the pure blocks'
state and ids. -/
theorem resolveCats_ok_intro (tx : VehicleDb) (vd : VehiculoData)
    (h : jsFalsy ((cvObtenerIDSVehiculo tx vd).idTipo) = false) :
    resolveCats tx vd = .ok (txAfterCats tx vd,
      (resolvedIdsOf tx vd).idClase, (resolvedIdsOf tx vd).idTipo,
      (resolvedIdsOf tx vd).idUso, (resolvedIdsOf tx vd).idColor) := by
  simp only [resolveCats]
  rw [if_neg (by simp [h])]
  rfl

/-- Test fixture: a vehicle row for serial NIV12345 carrying old values,
including old plate numbers and a status. -/
def r0 : VehicleRow :=
  { numeroSerie := "NIV12345", idVehiculo := 77, anio := some 1999
    numeroPasajeros := none, cilindros := none, idClase := none, clase := none
    idTipo := none, tipo := none, idMarca := none, marca := none
    idSubMarca := none, submarca := none, idVersion := none, version := none
    idUso := none, uso := none, idCombustible := none, combustible := none
    claveOrigen := none, idColor := none, color := none, numeroMotor := none
    rfv := none, numeroPuertas := none, nrpv := none, claveVehicular := none
    numeroToneladas := none, capacidad := none, idServicio := some 3
    idTipoPlaca := none, idCategoria := none, ultimaActualizacion := none
    placaAnterior := some "OLDPREV", placaAsignada := some "OLDASIG"
    idEstatus := some 1 }

/-- Test fixture: a vehicle database with one vehicle, two classes, no
types, one use, one color, one plate type, and empty lookup-only catalogs.
Because the type catalog is empty, any request resolves its type to null
here and the Tipo block throws. -/
def db0 : VehicleDb :=
  { vehiculos := [r0]
    clases := [⟨1, "AUTOMOVIL", 1⟩, ⟨2, "MOTOCICLETA", 1⟩]
    tipos := []
    usos := [⟨4, "TRANSPORTE"⟩]
    colores := [⟨7, "AZUL"⟩]
    combustibles := []
    marcas := []
    submarcas := []
    origenes := []
    tiposPlaca := [⟨5, "PARTICULAR"⟩]
    servicios := []
    categoriaFn := []
    bitacora := [] }

/-- Test fixture: db0 with one type row (SEDAN under class 1), so a
request for class AUTOMOVIL and type SEDAN passes the Tipo block. -/
def db1 : VehicleDb := { db0 with tipos := [⟨1, 9, "SEDAN"⟩] }

/-- Test fixture: an empty concession database. -/
def cdb0 : ConcesionDb := ⟨[]⟩

/-- Test fixture: a modification request for serial NIV12345 with an
existing class and color, type SEDAN, and new plate numbers. -/
def vd0 : VehiculoData :=
  { Anio := 2020, NumeroPasajeros := 4, Cilindros := 4, Clase := "AUTOMOVIL"
    ClaveVehicular := "CV1", Color := "AZUL", Combustible := "DIESEL"
    servicio := "PUBLICO", IdVersion := 3, Marca := "NISSAN", NRPV := "NR1"
    NumeroMotor := "M1", NumeroPuertas := 4, NumeroSerie := "NIV12345"
    Origen := "NACIONAL", PlacaAnterior := "NEWPREV", PlacaAsignada := "NEWASIG"
    RFV := "RF1", Submarca := "TSURU", Tipo := "SEDAN", Uso := "TRANSPORTE"
    Version := "V1", IdTipoPlaca := 5, NumeroToneladas := "2", Capacidad := "5" }

/-- Test fixture: the same request for a serial that does not exist. -/
def vdU : VehiculoData := { vd0 with NumeroSerie := "UNKNOWN" }

/-- Test fixture: the fixture request under the other existing class
(its type lookup misses there, since SEDAN only exists under class 1). -/
def vdM : VehiculoData := { vd0 with Clase := "MOTOCICLETA" }

/-- Test fixture: a request whose class does not exist in the catalog. -/
def vdC : VehiculoData := { vd0 with Clase := "CAMION" }

/-- Test fixture: a request whose use and color miss their catalogs while
class and type resolve. -/
def vdN : VehiculoData := { vd0 with Uso := "CARGA", Color := "ROJO" }

/-- Test fixture: an insurance payload for concession 9. -/
def sd0 : SeguroData :=
  { idConcesion := 9, nombre := "QUALITAS", numeroPoliza := "P123"
    fechaExp := 100, fechaVence := 200, folioPago := "F1", observaciones := "OBS" }

/-- Test fixture: an acting-user context with every sub-field absent. -/
def ud0 : UserData := ⟨none, none, none, none⟩

/-- C1: the claim asserts the insurance upsert executes (only) after the
vehicle transaction has committed.  On the code it never executes at all:
at the concrete input below the call succeeds and commits vehicle-side
changes, yet the concession database — initially without any insurance
row for the supplied concession — is exactly as before. -/
theorem c1_counterexample :
    (modificarVehiculoYAseguradora noFail 1000 db1 cdb0 vd0 sd0 ud0).result
        = .ok { idVehiculo := some 77, returnValue := 0 }
      ∧ (modificarVehiculoYAseguradora noFail 1000 db1 cdb0 vd0 sd0 ud0).vdb ≠ db1
      ∧ (modificarVehiculoYAseguradora noFail 1000 db1 cdb0 vd0 sd0 ud0).cdb = cdb0
      ∧ cdb0.aseguradoras = [] := by
  refine ⟨rfl, by decide, rfl, rfl⟩

/-- C1 (amended): in the transactional variant the AseguradoraInsertar
inputs are bound before the commit but the procedure is never executed —
the execute call belongs to the other conflict hunk — so the concession
database is returned unchanged by every run, successful or failing, and
no insurance failure after commit can exist, let alone roll anything
back. -/
theorem c1_no_insurance_upsert (fails : Ev → Bool) (now : Int) (vdb : VehicleDb)
    (cdb : ConcesionDb) (vd : VehiculoData) (sd : SeguroData) (ud : UserData) :
    (modificarVehiculoYAseguradora fails now vdb cdb vd sd ud).cdb = cdb :=
  (run_shape fails now vdb cdb vd sd ud).1

/-- C2: the code does not detect the zero-rows-affected UPDATE.  For the
request with serial UNKNOWN, which matches no vehicle row of db1 (a state
whose class/type/use/color all resolve, so the call reaches the UPDATE),
the call silently succeeds: it returns ok with a null vehicle id, leaves
the vehicle rows untouched, commits, and writes an audit row whose
vehicle id is null. -/
theorem c2_unknown_serial_silent_commit :
    (∀ r ∈ db1.vehiculos, ¬ r.numeroSerie = vdU.NumeroSerie)
      ∧ (modificarVehiculoYAseguradora noFail 1000 db1 cdb0 vdU sd0 ud0).result
          = .ok { idVehiculo := none, returnValue := 0 }
      ∧ (modificarVehiculoYAseguradora noFail 1000 db1 cdb0 vdU sd0 ud0).vdb.vehiculos
          = db1.vehiculos
      ∧ (modificarVehiculoYAseguradora noFail 1000 db1 cdb0 vdU sd0 ud0).vdb.bitacora
          = [mkBitacoraRow none "UNKNOWN" ud0] := by
  refine ⟨by decide, rfl, rfl, rfl⟩

/-- C3: whenever the call fails, the vehicle transaction is rolled back
completely — the whole vehicle database, in particular every catalog list
and the audit log, is exactly the one from before the call. -/
theorem c3_precommit_failure_rolls_back (fails : Ev → Bool) (now : Int)
    (vdb : VehicleDb) (cdb : ConcesionDb) (vd : VehiculoData) (sd : SeguroData)
    (ud : UserData) (e : String)
    (h : (modificarVehiculoYAseguradora fails now vdb cdb vd sd ud).result = .error e) :
    (modificarVehiculoYAseguradora fails now vdb cdb vd sd ud).vdb = vdb
      ∧ (modificarVehiculoYAseguradora fails now vdb cdb vd sd ud).vdb.clases = vdb.clases
      ∧ (modificarVehiculoYAseguradora fails now vdb cdb vd sd ud).vdb.tipos = vdb.tipos
      ∧ (modificarVehiculoYAseguradora fails now vdb cdb vd sd ud).vdb.usos = vdb.usos
      ∧ (modificarVehiculoYAseguradora fails now vdb cdb vd sd ud).vdb.colores = vdb.colores
      ∧ (modificarVehiculoYAseguradora fails now vdb cdb vd sd ud).vdb.bitacora = vdb.bitacora := by
  have hv := run_error_vdb fails now vdb cdb vd sd ud e h
  exact ⟨hv, by rw [hv], by rw [hv], by rw [hv], by rw [hv], by rw [hv]⟩

/-- C3 witness: the rollback theorem applied to a concrete run in which
the UPDATE statement throws (the fixture's type resolves, so the run
really reaches the UPDATE). -/
theorem c3_witness :
    (modificarVehiculoYAseguradora (failsOnly Ev.updateVehiculo) 1000 db1 cdb0 vd0 sd0 ud0).vdb = db1
      ∧ (modificarVehiculoYAseguradora (failsOnly Ev.updateVehiculo) 1000 db1 cdb0 vd0 sd0 ud0).vdb.clases = db1.clases
      ∧ (modificarVehiculoYAseguradora (failsOnly Ev.updateVehiculo) 1000 db1 cdb0 vd0 sd0 ud0).vdb.tipos = db1.tipos
      ∧ (modificarVehiculoYAseguradora (failsOnly Ev.updateVehiculo) 1000 db1 cdb0 vd0 sd0 ud0).vdb.usos = db1.usos
      ∧ (modificarVehiculoYAseguradora (failsOnly Ev.updateVehiculo) 1000 db1 cdb0 vd0 sd0 ud0).vdb.colores = db1.colores
      ∧ (modificarVehiculoYAseguradora (failsOnly Ev.updateVehiculo) 1000 db1 cdb0 vd0 sd0 ud0).vdb.bitacora = db1.bitacora :=
  c3_precommit_failure_rolls_back (failsOnly Ev.updateVehiculo) 1000 db1 cdb0 vd0 sd0 ud0
    (errMsg Ev.updateVehiculo) (by rfl)

/-- C4: no vehicle-success/insurance-failure pair is ever reported.  At
db0 the fixture request's type lookup misses, so the real call throws the
Tipo block's undeclared-parameter error: the route answers one opaque
HTTP 500 body and the vehicle side is rolled back.  At db1 the call
succeeds and the response carries only the vehicle id — the concession
database was never written, so there is no insurance status to report. -/
theorem c4_counterexample :
    putConcesionVehiculoRespond
        ((modificarVehiculoYAseguradora noFail 1000 db0 cdb0 vd0 sd0 ud0).result)
      = RouteResp.err 500 "Error al modificar vehículo y aseguradora"
          (errMsgStr tipoUndeclaredMsg)
      ∧ (modificarVehiculoYAseguradora noFail 1000 db0 cdb0 vd0 sd0 ud0).vdb = db0
      ∧ putConcesionVehiculoRespond
          ((modificarVehiculoYAseguradora noFail 1000 db1 cdb0 vd0 sd0 ud0).result)
        = RouteResp.ok (some 77) 0 "Vehículo y aseguradora modificados correctamente"
      ∧ (modificarVehiculoYAseguradora noFail 1000 db1 cdb0 vd0 sd0 ud0).cdb = cdb0 := by
  refine ⟨rfl, rfl, rfl, rfl⟩

/-- C4 (amended): when any step of the call fails, the caller receives a
single opaque error — the service throws one message and the route
answers a single HTTP 500 body carrying it — and the vehicle-side changes
are rolled back; the concession database is untouched by every run, so no
independent vehicle-success/insurance-failure pair exists or could be
reported. -/
theorem c4_single_opaque_error (fails : Ev → Bool) (now : Int) (vdb : VehicleDb)
    (cdb : ConcesionDb) (vd : VehiculoData) (sd : SeguroData) (ud : UserData)
    (e : String) :
    ((modificarVehiculoYAseguradora fails now vdb cdb vd sd ud).result = .error e →
        putConcesionVehiculoRespond
            ((modificarVehiculoYAseguradora fails now vdb cdb vd sd ud).result)
          = RouteResp.err 500 "Error al modificar vehículo y aseguradora" e
        ∧ (modificarVehiculoYAseguradora fails now vdb cdb vd sd ud).vdb = vdb)
      ∧ (modificarVehiculoYAseguradora fails now vdb cdb vd sd ud).cdb = cdb := by
  refine ⟨?_, (run_shape fails now vdb cdb vd sd ud).1⟩
  intro he
  exact ⟨by rw [he]; rfl, run_error_vdb fails now vdb cdb vd sd ud e he⟩

/-- C4 witness: the opaque-error contract at the concrete input where the
source really throws (type lookup miss at db0). -/
theorem c4_witness :
    putConcesionVehiculoRespond
        ((modificarVehiculoYAseguradora noFail 1000 db0 cdb0 vd0 sd0 ud0).result)
      = RouteResp.err 500 "Error al modificar vehículo y aseguradora"
          (errMsgStr tipoUndeclaredMsg)
      ∧ (modificarVehiculoYAseguradora noFail 1000 db0 cdb0 vd0 sd0 ud0).vdb = db0 :=
  (c4_single_opaque_error noFail 1000 db0 cdb0 vd0 sd0 ud0
    (errMsgStr tipoUndeclaredMsg)).1 (by rfl)

/-- C5: the claim says every catalog field is find-or-create.  For the
fuel field of the concrete successful run below the exact-match lookup
misses, yet no fuel catalog row is inserted and the committed vehicle row
carries a null fuel id. -/
theorem c5_counterexample :
    lookupCatalogo db1.combustibles vd0.Combustible = none
      ∧ (modificarVehiculoYAseguradora noFail 1000 db1 cdb0 vd0 sd0 ud0).result
          = .ok { idVehiculo := some 77, returnValue := 0 }
      ∧ (modificarVehiculoYAseguradora noFail 1000 db1 cdb0 vd0 sd0 ud0).vdb.combustibles = []
      ∧ (∀ r ∈ (modificarVehiculoYAseguradora noFail 1000 db1 cdb0 vd0 sd0 ud0).vdb.vehiculos,
          r.numeroSerie = vd0.NumeroSerie → r.idCombustible = none) := by
  refine ⟨rfl, rfl, rfl, by decide⟩

/-- C5 (amended): only the use and color catalogs have a working
find-or-create path — a miss there inserts exactly one new row with the
supplied text whose generated id the update uses.  The class and type
blocks cannot create persistent rows: a type miss makes the Tipo block
throw its undeclared-parameter error and roll the call back, and a class
miss forces a type miss (the scoped type lookup needs the class id), so
any just-inserted class row is rolled back with it.  The type catalog and
the fuel, make, submodel, origin, plate-type and service catalogs never
gain rows; for the lookup-only fields the committed row receives the
plain lookup result (null on a miss). -/
theorem c5_find_or_create_scope (fails : Ev → Bool) (now : Int) (vdb : VehicleDb)
    (cdb : ConcesionDb) (vd : VehiculoData) (sd : SeguroData) (ud : UserData) :
    ((modificarVehiculoYAseguradora fails now vdb cdb vd sd ud).vdb.tipos = vdb.tipos
      ∧ (modificarVehiculoYAseguradora fails now vdb cdb vd sd ud).vdb.combustibles = vdb.combustibles
      ∧ (modificarVehiculoYAseguradora fails now vdb cdb vd sd ud).vdb.marcas = vdb.marcas
      ∧ (modificarVehiculoYAseguradora fails now vdb cdb vd sd ud).vdb.submarcas = vdb.submarcas
      ∧ (modificarVehiculoYAseguradora fails now vdb cdb vd sd ud).vdb.origenes = vdb.origenes
      ∧ (modificarVehiculoYAseguradora fails now vdb cdb vd sd ud).vdb.tiposPlaca = vdb.tiposPlaca
      ∧ (modificarVehiculoYAseguradora fails now vdb cdb vd sd ud).vdb.servicios = vdb.servicios)
    ∧ (jsFalsy ((cvObtenerIDSVehiculo vdb vd).idTipo) = true →
        (modificarVehiculoYAseguradora noFail now vdb cdb vd sd ud).result
            = .error (errMsgStr tipoUndeclaredMsg)
          ∧ (modificarVehiculoYAseguradora noFail now vdb cdb vd sd ud).vdb = vdb)
    ∧ (lookupClase vdb.clases vd.Clase = none →
        (modificarVehiculoYAseguradora noFail now vdb cdb vd sd ud).result
            = .error (errMsgStr tipoUndeclaredMsg)
          ∧ (modificarVehiculoYAseguradora noFail now vdb cdb vd sd ud).vdb.clases = vdb.clases)
    ∧ (jsFalsy ((cvObtenerIDSVehiculo vdb vd).idTipo) = false →
        jsFalsy (lookupUso vdb.usos vd.Uso) = true →
          (modificarVehiculoYAseguradora noFail now vdb cdb vd sd ud).vdb.usos
              = vdb.usos ++ [⟨nextId (vdb.usos.map (·.idUsoVehiculo)), vd.Uso⟩]
            ∧ (resolvedIdsOf vdb vd).idUso = nextId (vdb.usos.map (·.idUsoVehiculo)))
    ∧ (jsFalsy ((cvObtenerIDSVehiculo vdb vd).idTipo) = false →
        jsFalsy (lookupColor vdb.colores vd.Color) = true →
          (modificarVehiculoYAseguradora noFail now vdb cdb vd sd ud).vdb.colores
              = vdb.colores ++ [⟨nextId (vdb.colores.map (·.idColor)), vd.Color⟩]
            ∧ (resolvedIdsOf vdb vd).idColor = nextId (vdb.colores.map (·.idColor)))
    ∧ (jsFalsy ((cvObtenerIDSVehiculo vdb vd).idTipo) = false →
        ∀ r ∈ (modificarVehiculoYAseguradora noFail now vdb cdb vd sd ud).vdb.vehiculos,
          r.numeroSerie = vd.NumeroSerie →
            r.idClase = some (resolvedIdsOf vdb vd).idClase
            ∧ r.idUso = some (resolvedIdsOf vdb vd).idUso
            ∧ r.idColor = some (resolvedIdsOf vdb vd).idColor
            ∧ r.idCombustible = lookupCatalogo vdb.combustibles vd.Combustible
            ∧ r.idServicio = lookupCatalogo vdb.servicios vd.servicio) := by
  refine ⟨run_lookup_only_frames fails now vdb cdb vd sd ud, ?_, ?_, ?_, ?_, ?_⟩
  · intro h
    rw [run_noFail_tipoMiss_eq now vdb cdb vd sd ud h]
    exact ⟨rfl, rfl⟩
  · intro h
    have ht : jsFalsy ((cvObtenerIDSVehiculo vdb vd).idTipo) = true := by
      simp [cvObtenerIDSVehiculo, h, jsFalsy]
    rw [run_noFail_tipoMiss_eq now vdb cdb vd sd ud ht]
    exact ⟨rfl, rfl⟩
  · intro ht hu
    have husos : (modificarVehiculoYAseguradora noFail now vdb cdb vd sd ud).vdb.usos
        = (txAfterCats vdb vd).usos := by
      rw [run_noFail_found_eq now vdb cdb vd sd ud ht, committedVdbOf_eq]
    have h2 := txAfterCats_usos_eq vdb vd
    rw [if_pos hu, Prod.mk.injEq] at h2
    exact ⟨husos.trans h2.1, h2.2⟩
  · intro ht hk
    have hcols : (modificarVehiculoYAseguradora noFail now vdb cdb vd sd ud).vdb.colores
        = (txAfterCats vdb vd).colores := by
      rw [run_noFail_found_eq now vdb cdb vd sd ud ht, committedVdbOf_eq]
    have h2 := txAfterCats_colores_eq vdb vd
    rw [if_pos hk, Prod.mk.injEq] at h2
    exact ⟨hcols.trans h2.1, h2.2⟩
  · intro ht r hm hs
    have hok : (modificarVehiculoYAseguradora noFail now vdb cdb vd sd ud).result
        = .ok { idVehiculo := idVehiculoOf now vdb vd, returnValue := 0 } := by
      rw [run_noFail_found_eq now vdb cdb vd sd ud ht]
    obtain ⟨a, _, b, c, d, _, _, _, e, _, _⟩ :=
      run_ok_matching_row noFail now vdb cdb vd sd ud _ r hok hm hs
    exact ⟨a, b, c, d, e⟩

/-- C5 witness: at a state whose class and type resolve, a use miss and a
color miss each insert exactly one row whose fresh id is resolved; at a
state whose class misses, the call fails with the Tipo block's error and
no class row persists. -/
theorem c5_witness :
    ((modificarVehiculoYAseguradora noFail 1000 db1 cdb0 vdN sd0 ud0).vdb.usos
        = db1.usos ++ [⟨5, "CARGA"⟩]
      ∧ (resolvedIdsOf db1 vdN).idUso = 5)
    ∧ ((modificarVehiculoYAseguradora noFail 1000 db1 cdb0 vdN sd0 ud0).vdb.colores
        = db1.colores ++ [⟨8, "ROJO"⟩]
      ∧ (resolvedIdsOf db1 vdN).idColor = 8)
    ∧ ((modificarVehiculoYAseguradora noFail 1000 db1 cdb0 vdC sd0 ud0).result
        = .error (errMsgStr tipoUndeclaredMsg)
      ∧ (modificarVehiculoYAseguradora noFail 1000 db1 cdb0 vdC sd0 ud0).vdb.clases
          = db1.clases) := by
  have h1 := c5_find_or_create_scope noFail 1000 db1 cdb0 vdN sd0 ud0
  have h2 := c5_find_or_create_scope noFail 1000 db1 cdb0 vdC sd0 ud0
  exact ⟨h1.2.2.2.1 (by decide) (by decide), h1.2.2.2.2.1 (by decide) (by decide),
    h2.2.2.1 (by decide)⟩

/-- C6: at a concrete input whose request carries new plate numbers the
call succeeds, yet the committed row keeps the old PlacaAnterior and
PlacaAsignada values — the UPDATE's SET list does not contain them. -/
theorem c6_counterexample :
    (modificarVehiculoYAseguradora noFail 1000 db1 cdb0 vd0 sd0 ud0).result
        = .ok { idVehiculo := some 77, returnValue := 0 }
      ∧ vd0.PlacaAnterior = "NEWPREV"
      ∧ vd0.PlacaAsignada = "NEWASIG"
      ∧ ((modificarVehiculoYAseguradora noFail 1000 db1 cdb0 vd0 sd0 ud0).vdb.vehiculos.find?
            (fun r => r.numeroSerie == "NIV12345")).map
            (fun r => (r.placaAnterior, r.placaAsignada))
          = some (some "OLDPREV", some "OLDASIG") := by
  refine ⟨rfl, rfl, rfl, rfl⟩

/-- C6 (amended): in every run that reaches the UPDATE (the type lookup
hit — the only way the call can get past the Tipo block), each vehicle
row matching the supplied serial is overwritten on every column of the
SET list with UltimaActualizacion stamped to the call time, rows with
other serials are untouched, and no row's NumeroSerie, IdVehiculo,
IdEstatus, PlacaAnterior or PlacaAsignada changes: the plate numbers are
not in the SET list and keep their old values. -/
theorem c6_update_overwrites_except_plates (now : Int) (vdb : VehicleDb)
    (cdb : ConcesionDb) (vd : VehiculoData) (sd : SeguroData) (ud : UserData)
    (h : jsFalsy ((cvObtenerIDSVehiculo vdb vd).idTipo) = false) :
    (modificarVehiculoYAseguradora noFail now vdb cdb vd sd ud).vdb.vehiculos
        = vdb.vehiculos.map (updateVehicleRow now vd (resolvedIdsOf vdb vd))
      ∧ (∀ r : VehicleRow,
          (updateVehicleRow now vd (resolvedIdsOf vdb vd) r).numeroSerie = r.numeroSerie
          ∧ (updateVehicleRow now vd (resolvedIdsOf vdb vd) r).idVehiculo = r.idVehiculo
          ∧ (updateVehicleRow now vd (resolvedIdsOf vdb vd) r).idEstatus = r.idEstatus
          ∧ (updateVehicleRow now vd (resolvedIdsOf vdb vd) r).placaAnterior = r.placaAnterior
          ∧ (updateVehicleRow now vd (resolvedIdsOf vdb vd) r).placaAsignada = r.placaAsignada)
      ∧ (∀ r : VehicleRow, ¬ r.numeroSerie = vd.NumeroSerie →
          updateVehicleRow now vd (resolvedIdsOf vdb vd) r = r)
      ∧ (∀ r : VehicleRow, r.numeroSerie = vd.NumeroSerie →
          updateVehicleRow now vd (resolvedIdsOf vdb vd) r
            = { r with
                anio := some vd.Anio
                numeroPasajeros := some vd.NumeroPasajeros
                cilindros := some vd.Cilindros
                idClase := some (resolvedIdsOf vdb vd).idClase
                clase := some vd.Clase
                idTipo := some (resolvedIdsOf vdb vd).idTipo
                tipo := some vd.Tipo
                idMarca := (resolvedIdsOf vdb vd).idMarca
                marca := some vd.Marca
                idSubMarca := (resolvedIdsOf vdb vd).idSubMarca
                submarca := some vd.Submarca
                idVersion := some (resolvedIdsOf vdb vd).idVersion
                version := some vd.Version
                idUso := some (resolvedIdsOf vdb vd).idUso
                uso := some vd.Uso
                idCombustible := (resolvedIdsOf vdb vd).idCombustible
                combustible := some vd.Combustible
                claveOrigen := (resolvedIdsOf vdb vd).claveOrigen
                idColor := some (resolvedIdsOf vdb vd).idColor
                color := some vd.Color
                numeroMotor := some vd.NumeroMotor
                rfv := some vd.RFV
                numeroPuertas := some vd.NumeroPuertas
                nrpv := some vd.NRPV
                claveVehicular := some vd.ClaveVehicular
                numeroToneladas := some vd.NumeroToneladas
                capacidad := some vd.Capacidad
                idServicio := (resolvedIdsOf vdb vd).idServicio
                idTipoPlaca := some (resolvedIdsOf vdb vd).idTipoPlacaWP
                idCategoria := some (resolvedIdsOf vdb vd).idCategoria
                ultimaActualizacion := some now }) := by
  refine ⟨?_, ?_, ?_, ?_⟩
  · rw [run_noFail_found_eq now vdb cdb vd sd ud h, committedVdbOf_eq]
  · intro r
    by_cases hb : (r.numeroSerie == vd.NumeroSerie) = true
    · simp [updateVehicleRow, hb]
    · simp [updateVehicleRow, hb]
  · intro r hr
    simp [updateVehicleRow, hr]
  · intro r hr
    simp [updateVehicleRow, hr]

/-- C6 witness: the UPDATE characterization at the concrete successful
run (serial NIV12345, resolvable type), with the plate columns of the
fixture row preserved. -/
theorem c6_witness :
    (modificarVehiculoYAseguradora noFail 1000 db1 cdb0 vd0 sd0 ud0).vdb.vehiculos
        = db1.vehiculos.map (updateVehicleRow 1000 vd0 (resolvedIdsOf db1 vd0))
      ∧ (updateVehicleRow 1000 vd0 (resolvedIdsOf db1 vd0) r0).placaAnterior
          = r0.placaAnterior
      ∧ (updateVehicleRow 1000 vd0 (resolvedIdsOf db1 vd0) r0).placaAsignada
          = r0.placaAsignada := by
  have h := c6_update_overwrites_except_plates 1000 db1 cdb0 vd0 sd0 ud0 (by decide)
  exact ⟨h.1, (h.2.1 r0).2.2.2.1, (h.2.1 r0).2.2.2.2⟩

/-- C7: the claimed class-scoped type creation can never happen.  At db0
the class AUTOMOVIL exists (id 1) and the label SEDAN has no type row, so
the call takes the type-creation path — and throws the Tipo block's
undeclared-parameter error, rolling everything back; the same happens
under the other class MOTOCICLETA (id 2).  No type row is ever created
under either class. -/
theorem c7_type_creation_always_throws :
    lookupClase db0.clases vd0.Clase = some 1
      ∧ lookupTipo db0.tipos 1 vd0.Tipo = none
      ∧ (modificarVehiculoYAseguradora noFail 1000 db0 cdb0 vd0 sd0 ud0).result
          = .error (errMsgStr tipoUndeclaredMsg)
      ∧ (modificarVehiculoYAseguradora noFail 1000 db0 cdb0 vd0 sd0 ud0).vdb = db0
      ∧ lookupClase db0.clases vdM.Clase = some 2
      ∧ (modificarVehiculoYAseguradora noFail 1000 db0 cdb0 vdM sd0 ud0).result
          = .error (errMsgStr tipoUndeclaredMsg)
      ∧ (modificarVehiculoYAseguradora noFail 1000 db0 cdb0 vdM sd0 ud0).vdb = db0 := by
  refine ⟨rfl, rfl, rfl, rfl, rfl, rfl, rfl⟩

/-- C8: every successful call appends exactly one audit row — null
user-context sub-fields default to 0 and the operation code is the
constant 2 — and every failing call appends none. -/
theorem c8_single_audit_row (fails : Ev → Bool) (now : Int) (vdb : VehicleDb)
    (cdb : ConcesionDb) (vd : VehiculoData) (sd : SeguroData) (ud : UserData) :
    (∀ m : ModResult,
        (modificarVehiculoYAseguradora fails now vdb cdb vd sd ud).result = .ok m →
          (modificarVehiculoYAseguradora fails now vdb cdb vd sd ud).vdb.bitacora
            = vdb.bitacora ++ [mkBitacoraRow (idVehiculoOf now vdb vd) vd.NumeroSerie ud])
      ∧ (mkBitacoraRow (idVehiculoOf now vdb vd) vd.NumeroSerie ud).idOperacion = 2
      ∧ (ud.UserID = none →
          (mkBitacoraRow (idVehiculoOf now vdb vd) vd.NumeroSerie ud).idUsuario = 0)
      ∧ (ud.ProfileID = none →
          (mkBitacoraRow (idVehiculoOf now vdb vd) vd.NumeroSerie ud).idPerfil = 0)
      ∧ (ud.SmartCardID = none →
          (mkBitacoraRow (idVehiculoOf now vdb vd) vd.NumeroSerie ud).idSmartCard = 0)
      ∧ (ud.DelegationID = none →
          (mkBitacoraRow (idVehiculoOf now vdb vd) vd.NumeroSerie ud).idDelegacion = 0)
      ∧ (∀ e, (modificarVehiculoYAseguradora fails now vdb cdb vd sd ud).result = .error e →
          (modificarVehiculoYAseguradora fails now vdb cdb vd sd ud).vdb.bitacora
            = vdb.bitacora) := by
  refine ⟨?_, rfl, ?_, ?_, ?_, ?_, ?_⟩
  · intro m hok
    rcases (run_shape fails now vdb cdb vd sd ud).2 with ⟨⟨e, he⟩, _⟩ | ⟨_, hv⟩
    · rw [hok] at he
      cases he
    · rw [hv, committedVdbOf_eq]
  · intro hn
    simp [mkBitacoraRow, hn]
  · intro hn
    simp [mkBitacoraRow, hn]
  · intro hn
    simp [mkBitacoraRow, hn]
  · intro hn
    simp [mkBitacoraRow, hn]
  · intro e he
    rw [run_error_vdb fails now vdb cdb vd sd ud e he]

/-- C8 witness: one audit row appended by the concrete successful run,
with the all-absent user context defaulted to 0. -/
theorem c8_witness :
    (modificarVehiculoYAseguradora noFail 1000 db1 cdb0 vd0 sd0 ud0).vdb.bitacora
        = db1.bitacora ++ [mkBitacoraRow (idVehiculoOf 1000 db1 vd0) vd0.NumeroSerie ud0]
      ∧ (mkBitacoraRow (idVehiculoOf 1000 db1 vd0) vd0.NumeroSerie ud0).idUsuario = 0 := by
  have h := c8_single_audit_row noFail 1000 db1 cdb0 vd0 sd0 ud0
  exact ⟨h.1 { idVehiculo := idVehiculoOf 1000 db1 vd0, returnValue := 0 } (by rfl),
    h.2.2.1 rfl⟩

/-- C9: running the lookup-resolution logic of the call twice is claimed
idempotent for every catalog, but at db0 with label SEDAN under the
existing class AUTOMOVIL the first resolution does not insert a row and
return its id — it throws the Tipo block's undeclared-parameter error, so
there is no id for a second run to reproduce. -/
theorem c9_counterexample :
    lookupClase db0.clases vdM.Clase = some 2
      ∧ lookupTipo db0.tipos 2 vdM.Tipo = none
      ∧ resolveCats db0 vdM = .error tipoUndeclaredMsg := by
  refine ⟨rfl, rfl, rfl⟩

/-- C9 (amended): whenever the first resolution succeeds (its type lookup
hit) on a well-formed catalog state, running it again from the resulting
state succeeds with the same four ids and the same state: the class and
type catalogs are unchanged (a successful resolution can only have found
its class and type), and the use and color catalogs grew by at most one
row each, whose id the second run finds. -/
theorem c9_lookup_idempotent (tx : VehicleDb) (vd : VehiculoData)
    (out : VehicleDb × Int × Int × Int × Int)
    (hwf : wfVehicleDb tx) (h : resolveCats tx vd = .ok out) :
    resolveCats out.1 vd = .ok out
      ∧ out.1.tipos = tx.tipos
      ∧ out.1.clases = tx.clases
      ∧ out.1.usos.length ≤ tx.usos.length + 1
      ∧ out.1.colores.length ≤ tx.colores.length + 1 := by
  obtain ⟨wfC, wfT, wfU, wfK⟩ := hwf
  obtain ⟨hT, hout⟩ := resolveCats_ok_elim tx vd out h
  obtain ⟨w, hw, hw0⟩ := jsFalsy_eq_false _ hT
  have hout1 : out.1 = txAfterCats tx vd := by rw [hout]
  rcases hlc : lookupClase tx.clases vd.Clase with _ | v
  · exfalso
    have hnone : (cvObtenerIDSVehiculo tx vd).idTipo = none := by
      simp [cvObtenerIDSVehiculo, hlc]
    rw [hnone] at hw
    cases hw
  · have hvpos : 0 < v := lookupClase_pos tx.clases vd.Clase v wfC hlc
    have hfC : jsFalsy (lookupClase tx.clases vd.Clase) = false := by
      rw [hlc]
      exact jsFalsy_some_ne v (by omega)
    have hlt : lookupTipo tx.tipos v vd.Tipo = some w := by
      have hx := hw
      simp only [cvObtenerIDSVehiculo, hlc] at hx
      exact hx
    have hc := txAfterCats_clases_eq tx vd
    rw [if_neg (by simp [hfC]), Prod.mk.injEq] at hc
    have hcls : out.1.clases = tx.clases := by
      rw [hout1]
      exact hc.1
    have htip : out.1.tipos = tx.tipos := by
      rw [hout1]
      exact (txAfterCats_frame tx vd).2.2.1
    have hlc2 : lookupClase out.1.clases vd.Clase = some v := by
      rw [hcls]
      exact hlc
    have hfC2 : jsFalsy (lookupClase out.1.clases vd.Clase) = false := by
      rw [hlc2]
      exact jsFalsy_some_ne v (by omega)
    have hidT2 : (cvObtenerIDSVehiculo out.1 vd).idTipo = some w := by
      simp only [cvObtenerIDSVehiculo, hlc2]
      rw [htip]
      exact hlt
    have hfT2 : jsFalsy ((cvObtenerIDSVehiculo out.1 vd).idTipo) = false := by
      rw [hidT2]
      exact jsFalsy_some_ne w hw0
    have eA : (resolvedIdsOf out.1 vd).idClase = out.2.1 := by
      have hc2 := txAfterCats_clases_eq out.1 vd
      rw [if_neg (by simp [hfC2]), Prod.mk.injEq] at hc2
      rw [hc2.2, hlc2, Option.getD_some, hout]
      show v = (resolvedIdsOf tx vd).idClase
      rw [hc.2, hlc]
      rfl
    have eB : (resolvedIdsOf out.1 vd).idTipo = out.2.2.1 := by
      show ((cvObtenerIDSVehiculo out.1 vd).idTipo).getD 0 = out.2.2.1
      rw [hidT2, Option.getD_some, hout]
      show w = ((cvObtenerIDSVehiculo tx vd).idTipo).getD 0
      rw [hw]
      rfl
    have HU : jsFalsy (lookupUso out.1.usos vd.Uso) = false
        ∧ (resolvedIdsOf out.1 vd).idUso = out.2.2.2.1
        ∧ out.1.usos.length ≤ tx.usos.length + 1 := by
      have hu1 := txAfterCats_usos_eq tx vd
      by_cases hUc : jsFalsy (lookupUso tx.usos vd.Uso) = true
      · rw [if_pos hUc, Prod.mk.injEq] at hu1
        have husos : out.1.usos
            = tx.usos ++ [⟨nextId (tx.usos.map (·.idUsoVehiculo)), vd.Uso⟩] := by
          rw [hout1]
          exact hu1.1
        have hnone : lookupUso tx.usos vd.Uso = none := by
          rcases hn : lookupUso tx.usos vd.Uso with _ | u
          · rfl
          · exfalso
            have hupos := lookupUso_pos tx.usos vd.Uso u wfU hn
            rw [hn, jsFalsy_some_ne u (by omega)] at hUc
            cases hUc
        have hl2 : lookupUso out.1.usos vd.Uso
            = some (nextId (tx.usos.map (·.idUsoVehiculo))) := by
          rw [husos]
          exact lookupUso_append_self tx.usos vd.Uso _ hnone
        have hfU2 : jsFalsy (lookupUso out.1.usos vd.Uso) = false := by
          rw [hl2]
          exact jsFalsy_some_ne _
            (by have := nextId_pos (tx.usos.map (·.idUsoVehiculo)); omega)
        refine ⟨hfU2, ?_, by rw [husos]; simp⟩
        have hu2 := txAfterCats_usos_eq out.1 vd
        rw [if_neg (by simp [hfU2]), Prod.mk.injEq] at hu2
        rw [hu2.2, hl2, Option.getD_some, hout]
        show nextId (tx.usos.map (·.idUsoVehiculo)) = (resolvedIdsOf tx vd).idUso
        exact hu1.2.symm
      · rw [if_neg hUc, Prod.mk.injEq] at hu1
        have hfU : jsFalsy (lookupUso tx.usos vd.Uso) = false := by
          simpa using hUc
        obtain ⟨u, hun, hu0⟩ := jsFalsy_eq_false _ hfU
        have husos : out.1.usos = tx.usos := by
          rw [hout1]
          exact hu1.1
        have hl2 : lookupUso out.1.usos vd.Uso = some u := by
          rw [husos]
          exact hun
        have hfU2 : jsFalsy (lookupUso out.1.usos vd.Uso) = false := by
          rw [hl2]
          exact jsFalsy_some_ne u hu0
        refine ⟨hfU2, ?_, by rw [husos]; omega⟩
        have hu2 := txAfterCats_usos_eq out.1 vd
        rw [if_neg (by simp [hfU2]), Prod.mk.injEq] at hu2
        rw [hu2.2, hl2, Option.getD_some, hout]
        show u = (resolvedIdsOf tx vd).idUso
        rw [hu1.2, hun]
        rfl
    have HK : jsFalsy (lookupColor out.1.colores vd.Color) = false
        ∧ (resolvedIdsOf out.1 vd).idColor = out.2.2.2.2
        ∧ out.1.colores.length ≤ tx.colores.length + 1 := by
      have hk1 := txAfterCats_colores_eq tx vd
      by_cases hKc : jsFalsy (lookupColor tx.colores vd.Color) = true
      · rw [if_pos hKc, Prod.mk.injEq] at hk1
        have hcols : out.1.colores
            = tx.colores ++ [⟨nextId (tx.colores.map (·.idColor)), vd.Color⟩] := by
          rw [hout1]
          exact hk1.1
        have hnone : lookupColor tx.colores vd.Color = none := by
          rcases hn : lookupColor tx.colores vd.Color with _ | u
          · rfl
          · exfalso
            have hupos := lookupColor_pos tx.colores vd.Color u wfK hn
            rw [hn, jsFalsy_some_ne u (by omega)] at hKc
            cases hKc
        have hl2 : lookupColor out.1.colores vd.Color
            = some (nextId (tx.colores.map (·.idColor))) := by
          rw [hcols]
          exact lookupColor_append_self tx.colores vd.Color _ hnone
        have hfK2 : jsFalsy (lookupColor out.1.colores vd.Color) = false := by
          rw [hl2]
          exact jsFalsy_some_ne _
            (by have := nextId_pos (tx.colores.map (·.idColor)); omega)
        refine ⟨hfK2, ?_, by rw [hcols]; simp⟩
        have hk2 := txAfterCats_colores_eq out.1 vd
        rw [if_neg (by simp [hfK2]), Prod.mk.injEq] at hk2
        rw [hk2.2, hl2, Option.getD_some, hout]
        show nextId (tx.colores.map (·.idColor)) = (resolvedIdsOf tx vd).idColor
        exact hk1.2.symm
      · rw [if_neg hKc, Prod.mk.injEq] at hk1
        have hfK : jsFalsy (lookupColor tx.colores vd.Color) = false := by
          simpa using hKc
        obtain ⟨u, hun, hu0⟩ := jsFalsy_eq_false _ hfK
        have hcols : out.1.colores = tx.colores := by
          rw [hout1]
          exact hk1.1
        have hl2 : lookupColor out.1.colores vd.Color = some u := by
          rw [hcols]
          exact hun
        have hfK2 : jsFalsy (lookupColor out.1.colores vd.Color) = false := by
          rw [hl2]
          exact jsFalsy_some_ne u hu0
        refine ⟨hfK2, ?_, by rw [hcols]; omega⟩
        have hk2 := txAfterCats_colores_eq out.1 vd
        rw [if_neg (by simp [hfK2]), Prod.mk.injEq] at hk2
        rw [hk2.2, hl2, Option.getD_some, hout]
        show u = (resolvedIdsOf tx vd).idColor
        rw [hk1.2, hun]
        rfl
    refine ⟨?_, htip, hcls, HU.2.2, HK.2.2⟩
    rw [resolveCats_ok_intro out.1 vd hfT2,
      txAfterCats_all_found out.1 vd hfC2 HU.1 HK.1, eA, eB, HU.2.1, HK.2.1]

/-- C9 witness: a concrete successful resolution (class, type, use and
color all found) resolves to the same ids and state when run again. -/
theorem c9_witness :
    resolveCats db1 vd0 = .ok (db1, 1, 9, 4, 7)
      ∧ resolveCats (db1, (1 : Int), (9 : Int), (4 : Int), (7 : Int)).1 vd0
          = .ok (db1, 1, 9, 4, 7) := by
  have h := c9_lookup_idempotent db1 vd0 (db1, 1, 9, 4, 7)
    (by unfold wfVehicleDb; decide) (by rfl)
  exact ⟨by rfl, h.1⟩

/-- C10: a service-text miss never creates a service catalog row and never
fails the call by itself: the service id is resolved to null, bound as
null into the UPDATE so the matching committed row carries a null service
id, and a run that passes the Tipo block with no injected failure still
succeeds. -/
theorem c10_servicio_lookup_only (fails : Ev → Bool) (now : Int) (vdb : VehicleDb)
    (cdb : ConcesionDb) (vd : VehiculoData) (sd : SeguroData) (ud : UserData)
    (h : lookupCatalogo vdb.servicios vd.servicio = none) :
    (modificarVehiculoYAseguradora fails now vdb cdb vd sd ud).vdb.servicios
        = vdb.servicios
      ∧ (resolvedIdsOf vdb vd).idServicio = none
      ∧ (∀ m : ModResult,
          (modificarVehiculoYAseguradora fails now vdb cdb vd sd ud).result = .ok m →
            ∀ r ∈ (modificarVehiculoYAseguradora fails now vdb cdb vd sd ud).vdb.vehiculos,
              r.numeroSerie = vd.NumeroSerie → r.idServicio = none)
      ∧ (jsFalsy ((cvObtenerIDSVehiculo vdb vd).idTipo) = false →
          (modificarVehiculoYAseguradora noFail now vdb cdb vd sd ud).result
            = .ok { idVehiculo := idVehiculoOf now vdb vd, returnValue := 0 }) := by
  refine ⟨(run_lookup_only_frames fails now vdb cdb vd sd ud).2.2.2.2.2.2, h, ?_, ?_⟩
  · intro m hok r hm hs
    have hr := (run_ok_matching_row fails now vdb cdb vd sd ud m r hok hm hs).2.2.2.2.2.2.2.2.1
    rw [hr]
    exact h
  · intro ht
    rw [run_noFail_found_eq now vdb cdb vd sd ud ht]

/-- C10 witness: the service-miss contract at the concrete successful run
(empty service catalog, resolvable type). -/
theorem c10_witness :
    (modificarVehiculoYAseguradora noFail 1000 db1 cdb0 vd0 sd0 ud0).vdb.servicios
        = db1.servicios
      ∧ (resolvedIdsOf db1 vd0).idServicio = none
      ∧ (modificarVehiculoYAseguradora noFail 1000 db1 cdb0 vd0 sd0 ud0).result
          = .ok { idVehiculo := idVehiculoOf 1000 db1 vd0, returnValue := 0 } := by
  have h := c10_servicio_lookup_only noFail 1000 db1 cdb0 vd0 sd0 ud0 (by decide)
  exact ⟨h.1, h.2.1, h.2.2.2 (by decide)⟩

end Stch
